import Mathlib

/-!
# Shallow embedding of the 1000fetches request execution pipeline

Definitions transcribe `packages/1000fetches/src/core.ts`,
`packages/1000fetches/src/schema.ts`, `packages/1000fetches/src/utils/streaming.ts`
and the path-template module (`generatePath`).  Decoded response data and schema
objects are kept as type parameters `δ` and `σ`; machine numbers that the code
manipulates arithmetically (delays, backoff factors) are modelled as `ℚ`,
counters and HTTP statuses as `ℕ`.  `async` functions are modelled as pure
functions returning `Except` (the pipeline awaits every promise it creates, and
all claims are about the settled values).
-/

namespace OneKFetches

/-- Settled promise values are compared in witnesses, so `Except` needs
decidable equality. -/
instance {ε β : Type} [DecidableEq ε] [DecidableEq β] :
    DecidableEq (Except ε β) := fun a b => by
  cases a <;> cases b
  case error.error x y =>
    exact if h : x = y then .isTrue (by simp [h]) else .isFalse (by simp [h])
  case error.ok x y => exact .isFalse (by simp)
  case ok.error x y => exact .isFalse (by simp)
  case ok.ok x y =>
    exact if h : x = y then .isTrue (by simp [h]) else .isFalse (by simp [h])

/-- Where an abort originated.  The code cannot observe this — both origins
produce a DOMException whose `name` is `"AbortError"` — but the model records it
so that theorems can speak about the origin of an abort. -/
inductive AbortOrigin
  | perAttemptTimeout
  | callerSignal
deriving DecidableEq, Repr

/-- The `interceptorType` tag of `MiddlewareError` (errors.ts). -/
inductive MiddlewarePhase
  | request
  | response
deriving DecidableEq, Repr

/-- The three errors the default schema validator (`createSchemaValidator` in
schema.ts) can throw: `InvalidSchemaError`, `AsyncSchemaValidationError`, and a
`SchemaValidationError` built from `result.issues`. -/
inductive SchemaCause (σ δ : Type)
  | invalidSchema (schema : σ)
  | asyncValidation (schema : σ)
  | issues (issues : List String) (schema : σ) (data : δ)
deriving DecidableEq

/-- The error taxonomy of errors.ts as seen by the pipeline, plus
`abortError` (the DOMException a fetch rejects with when its signal aborts) and
`genericError` (any foreign error, identified by its `name` as the code does).
`timeoutError` carries the timeout value from its message and, as model-level
ghost data, the origin of the abort it was created from (its `cause`). -/
inductive FetchError (σ δ : Type)
  | httpError (status : Nat) (statusText : String) (data : δ) (url : String) (method : String)
  | networkError (msg : String)
  | timeoutError (timeoutMs : ℚ) (causeOrigin : Option AbortOrigin)
  | serializationError (msg : String)
  | schemaValidationError (schema : σ) (data : δ) (cause : Option (SchemaCause σ δ))
  | invalidSchemaError (schema : σ)
  | asyncSchemaValidationError (schema : σ)
  | middlewareError (phase : MiddlewarePhase) (url : String) (method : String)
  | abortError (origin : AbortOrigin)
  | genericError (name : String) (msg : String)
deriving DecidableEq

variable {σ δ α : Type}

/-- The `name` property of each error class (errors.ts assigns it literally). -/
def FetchError.errName : FetchError σ δ → String
  | .httpError _ _ _ _ _ => "HttpError"
  | .networkError _ => "NetworkError"
  | .timeoutError _ _ => "TimeoutError"
  | .serializationError _ => "SerializationError"
  | .schemaValidationError _ _ _ => "SchemaValidationError"
  | .invalidSchemaError _ => "InvalidSchemaError"
  | .asyncSchemaValidationError _ => "AsyncSchemaValidationError"
  | .middlewareError _ _ _ => "MiddlewareError"
  | .abortError _ => "AbortError"
  | .genericError n _ => n

/-- A retry-options object after merging, with every field present
(the shape of `Required<RetryOptions>`).  `shouldRetry` stays optional because
the standalone `shouldRetry` classifier checks its presence. -/
structure MergedRetryOptions (σ δ : Type) where
  maxRetries : Nat
  retryDelay : ℚ
  backoffFactor : ℚ
  retryStatusCodes : List Nat
  retryNetworkErrors : Bool
  maxRetryDelay : ℚ
  shouldRetry : Option (FetchError σ δ → Nat → Bool)

/-- A user-supplied `RetryOptions` object: every field optional.  `none` models
a key that is not supplied (JS spread semantics for absent keys; a key
explicitly set to `undefined` behaves the same at the point of use and is not
distinguished). -/
structure RetryOptionsJS (σ δ : Type) where
  maxRetries : Option Nat := none
  retryDelay : Option ℚ := none
  backoffFactor : Option ℚ := none
  retryStatusCodes : Option (List Nat) := none
  retryNetworkErrors : Option Bool := none
  maxRetryDelay : Option ℚ := none
  shouldRetry : Option (FetchError σ δ → Nat → Bool) := none

/-- `DEFAULT_RETRY_OPTIONS` (core.ts lines 33-41).  Note the code does define
`shouldRetry: () => true` here. -/
def DEFAULT_RETRY_OPTIONS : MergedRetryOptions σ δ where
  maxRetries := 3
  retryDelay := 300
  backoffFactor := 2
  retryStatusCodes := [429, 500, 502, 503, 504]
  retryNetworkErrors := true
  maxRetryDelay := 30000
  shouldRetry := some fun _ _ => true

/-- `{ ...DEFAULT_RETRY_OPTIONS, ...config.retryOptions, ...requestRetryOptions }`
(core.ts lines 246-250): per-request wins over client config wins over the
defaults, field by field; an absent options object contributes nothing. -/
def mergeRetryOptions (config request : Option (RetryOptionsJS σ δ)) :
    MergedRetryOptions σ δ :=
  let c := config.getD {}
  let r := request.getD {}
  { maxRetries := ((r.maxRetries).or c.maxRetries).getD (DEFAULT_RETRY_OPTIONS (σ := σ) (δ := δ)).maxRetries
    retryDelay := ((r.retryDelay).or c.retryDelay).getD (DEFAULT_RETRY_OPTIONS (σ := σ) (δ := δ)).retryDelay
    backoffFactor := ((r.backoffFactor).or c.backoffFactor).getD (DEFAULT_RETRY_OPTIONS (σ := σ) (δ := δ)).backoffFactor
    retryStatusCodes := ((r.retryStatusCodes).or c.retryStatusCodes).getD (DEFAULT_RETRY_OPTIONS (σ := σ) (δ := δ)).retryStatusCodes
    retryNetworkErrors := ((r.retryNetworkErrors).or c.retryNetworkErrors).getD (DEFAULT_RETRY_OPTIONS (σ := σ) (δ := δ)).retryNetworkErrors
    maxRetryDelay := ((r.maxRetryDelay).or c.maxRetryDelay).getD (DEFAULT_RETRY_OPTIONS (σ := σ) (δ := δ)).maxRetryDelay
    shouldRetry := ((r.shouldRetry).or c.shouldRetry).or (DEFAULT_RETRY_OPTIONS (σ := σ) (δ := δ)).shouldRetry }

/-- `error instanceof NetworkError || error.name === 'TypeError'`
(core.ts line 459). -/
def FetchError.isNetworkLike : FetchError σ δ → Bool
  | .networkError _ => true
  | e => e.errName = "TypeError"

/-- The standalone `shouldRetry` classifier (core.ts lines 444-464), evaluated
on the merged options the pipeline passes it (so the `?? false` fallbacks for
the always-present fields never fire).  The async predicate is modelled by its
settled boolean. -/
def shouldRetryFn (opts : MergedRetryOptions σ δ) (error : FetchError σ δ)
    (retryCount : Nat) : Bool :=
  match opts.shouldRetry with
  | some pred => pred error retryCount
  | none =>
    match error with
    | .httpError status _ _ _ _ => opts.retryStatusCodes.contains status
    | e => if e.isNetworkLike then opts.retryNetworkErrors else false

/-- `calculateRetryDelay` (core.ts lines 469-481):
`Math.min(baseDelay * Math.pow(backoffFactor, attempt), maxDelay)`, on the
merged options (whose fields are always present, so the `??` defaults never
fire). -/
def calculateRetryDelay (attempt : Nat) (opts : MergedRetryOptions σ δ) : ℚ :=
  min (opts.retryDelay * opts.backoffFactor ^ attempt) opts.maxRetryDelay

/-- The `catch` block's normalization (core.ts lines 329-334): any caught error
whose `name` is `"AbortError"` becomes
`new TimeoutError("Request timeout after " ++ timeout ++ "ms", lastError)`,
with no inspection of where the abort came from.  The ghost origin of an
`abortError` is carried into the `TimeoutError`'s cause. -/
def normalizeCaughtError (timeoutMs : ℚ) (e : FetchError σ δ) : FetchError σ δ :=
  if e.errName = "AbortError" then
    .timeoutError timeoutMs
      (match e with
        | .abortError o => some o
        | _ => none)
  else e

/-- Observable outcome of one run of the retry loop: how many times the
transport was invoked, how many retries were actually taken, the backoff delays
slept (in order), and the settled result. -/
structure RunResult (σ δ α : Type) where
  transportCalls : Nat
  retriesTaken : Nat
  delays : List ℚ
  outcome : Except (FetchError σ δ) α

/-- The retry loop of `fetcher` (core.ts lines 254-347), one iteration per
attempt.  `attemptBody i` is the settled value of the whole `try` block of
attempt `i` (transport call, response processing, response middleware); each
iteration reaches the transport call, so transport calls count iterations.
`remaining = maxRetries - attempt`, so `remaining > 0` is exactly the loop's
`attempt < maxRetries` guard. -/
def runFrom (opts : MergedRetryOptions σ δ) (timeoutMs : ℚ)
    (attemptBody : Nat → Except (FetchError σ δ) α) :
    Nat → Nat → RunResult σ δ α
  | 0, attempt =>
    match attemptBody attempt with
    | .ok v => ⟨1, 0, [], .ok v⟩
    | .error e => ⟨1, 0, [], .error (normalizeCaughtError timeoutMs e)⟩
  | r + 1, attempt =>
    match attemptBody attempt with
    | .ok v => ⟨1, 0, [], .ok v⟩
    | .error e =>
      let e' := normalizeCaughtError timeoutMs e
      if shouldRetryFn opts e' attempt then
        let rest := runFrom opts timeoutMs attemptBody r (attempt + 1)
        ⟨rest.transportCalls + 1, rest.retriesTaken + 1,
          calculateRetryDelay attempt opts :: rest.delays, rest.outcome⟩
      else ⟨1, 0, [], .error e'⟩

/-- The whole `for` loop: attempts start at index 0 and the guard allows
`maxRetries` further iterations. -/
def runRetryLoop (opts : MergedRetryOptions σ δ) (timeoutMs : ℚ)
    (attemptBody : Nat → Except (FetchError σ δ) α) : RunResult σ δ α :=
  runFrom opts timeoutMs attemptBody opts.maxRetries 0

/-- A transport response as the pipeline consumes it: status line, headers, and
the settled outcome of the body-decoding step of `processResponse`
(`response.json()` / `.text()` / `.arrayBuffer()` dispatch; its internals are
not the subject of any claim, so only its outcome — decoded value or a parse
failure message — is modelled). -/
structure RespModel (δ : Type) where
  status : Nat
  statusText : String
  headers : List (String × String)
  decodeOutcome : Except String δ
deriving DecidableEq

/-- The default status validator of `processResponse` (core.ts line 371):
`status >= 200 && status < 300`. -/
def defaultValidateStatus (status : Nat) : Bool :=
  200 ≤ status && status < 300

/-- The envelope `processResponse` builds (the `ResponseType` object of
types.ts, without the raw `Response` reference). -/
structure ResponseEnvelope (δ : Type) where
  data : δ
  status : Nat
  statusText : String
  headers : List (String × String)
  method : String
  url : String
deriving DecidableEq

/-- A Standard Schema object as the default validator sees it: whether it
passes the structural `isStandardSchema` check, and what its
`schema['~standard'].validate(data)` call yields. -/
inductive StdValidationResult (δ : Type)
  | promise
  | failure (issues : List String)
  | success (value : δ)
deriving DecidableEq

structure StandardSchema (δ : Type) where
  conforms : Bool
  validateFn : δ → StdValidationResult δ

/-- `createSchemaValidator().validate` (schema.ts lines 78-104): a
non-conforming schema throws `InvalidSchemaError`; a `Promise` result throws
`AsyncSchemaValidationError`; a result with `issues` throws
`SchemaValidationError`; otherwise the validated value is returned. -/
def standardValidate (schema : StandardSchema δ) (data : δ) :
    Except (SchemaCause (StandardSchema δ) δ) δ :=
  if !schema.conforms then
    .error (.invalidSchema schema)
  else
    match schema.validateFn data with
    | .promise => .error (.asyncValidation schema)
    | .failure issues => .error (.issues issues schema data)
    | .success v => .ok v

/-- `processResponse` (core.ts lines 356-439): decode the body (a decode
failure throws `SerializationError`), validate the status (failure throws
`HttpError` carrying status, statusText, decoded data, url, method), build the
envelope, then — when a schema was supplied — validate it; any error thrown by
the validator is caught and re-thrown as `SchemaValidationError` carrying the
schema, the decoded data, and the original error as cause.  The validator is a
parameter, as in the code (`schemaValidator` from the client config). -/
def processResponse (resp : RespModel δ) (validateStatus : Option (Nat → Bool))
    (schema : Option σ) (validator : σ → δ → Except (SchemaCause σ δ) δ)
    (method url : String) :
    Except (FetchError σ δ) (ResponseEnvelope δ) :=
  let vs := validateStatus.getD defaultValidateStatus
  match resp.decodeOutcome with
  | .error msg => .error (.serializationError msg)
  | .ok data =>
    if !vs resp.status then
      .error (.httpError resp.status resp.statusText data url method)
    else
      let envelope : ResponseEnvelope δ :=
        ⟨data, resp.status, resp.statusText, resp.headers, method, url⟩
      match schema with
      | none => .ok envelope
      | some s =>
        match validator s data with
        | .ok v => .ok { envelope with data := v }
        | .error c => .error (.schemaValidationError s data (some c))

/-- The whole `try` block of one attempt (core.ts lines 277-324): transport
call, download instrumentation (byte-identical, see the streaming section),
`processResponse`, then the response middleware; a middleware rejection is
re-thrown as `MiddlewareError('response', url, method, cause)` — note that this
happens inside the `try`, so the loop's `catch` sees it.  The middleware is
modelled by the settled outcome of its call on the envelope. -/
def attemptBody (transport : Nat → Except (FetchError σ δ) (RespModel δ))
    (validateStatus : Option (Nat → Bool)) (schema : Option σ)
    (validator : σ → δ → Except (SchemaCause σ δ) δ)
    (respMiddleware : Option (ResponseEnvelope δ → Except String (ResponseEnvelope δ)))
    (method url : String) (attempt : Nat) :
    Except (FetchError σ δ) (ResponseEnvelope δ) :=
  match transport attempt with
  | .error e => .error e
  | .ok resp =>
    match processResponse resp validateStatus schema validator method url with
    | .error e => .error e
    | .ok envelope =>
      match respMiddleware with
      | none => .ok envelope
      | some mw =>
        match mw envelope with
        | .ok envelope' => .ok envelope'
        | .error _ => .error (.middlewareError .response url method)

/-- The pipeline from the request-middleware hook on (core.ts lines 170-182
then 254-347): a request-middleware rejection is re-thrown as
`MiddlewareError('request', url, method, cause)` before the retry loop ever
starts, so it causes zero transport calls; otherwise the retry loop runs.  The
request middleware is modelled by the settled outcome of its single call
(the context transformation itself is not the subject of any claim). -/
def fetcherRun (reqMiddleware : Option (Except String Unit))
    (opts : MergedRetryOptions σ δ) (timeoutMs : ℚ)
    (body : Nat → Except (FetchError σ δ) α) (url method : String) :
    RunResult σ δ α :=
  match reqMiddleware with
  | some (.error _) => ⟨0, 0, [], .error (.middlewareError .request url method)⟩
  | _ => runRetryLoop opts timeoutMs body

/-- The final-signal selection plus WHATWG fetch semantics for an aborted
signal (core.ts lines 258-290): when the caller-supplied signal is already
aborted it is handed to the transport unchanged, and a fetch whose signal is
aborted rejects immediately with a DOMException named "AbortError" — the
transport function is still invoked.  When the signal is not aborted the
underlying transport decides. -/
def transportWithSignal (callerSignalAborted : Bool)
    (underlying : Nat → Except (FetchError σ δ) (RespModel δ)) (attempt : Nat) :
    Except (FetchError σ δ) (RespModel δ) :=
  if callerSignalAborted then .error (.abortError .callerSignal)
  else underlying attempt

/-- Per-attempt timer bookkeeping, transcribed from the attempt body of
`fetcher` (core.ts lines 254-346): `setTimeout` runs at the top of every
attempt (line 256); the success path returns from inside `try` without a
`clearTimeout`; the `catch` block begins with `clearTimeout` (line 326).  The
only other `clearTimeout` is inside the combined-signal `cleanup` (line 266),
which runs only when an abort event actually fires; `abortEventFired` records
that. -/
structure AttemptTimerState where
  timerSet : Bool
  timerCleared : Bool
deriving DecidableEq, Repr

def runAttemptTimer (abortEventFired : Bool)
    (tryOutcome : Except (FetchError σ δ) α) :
    AttemptTimerState × Except (FetchError σ δ) α :=
  match tryOutcome with
  | .ok v => (⟨true, abortEventFired⟩, .ok v)
  | .error e => (⟨true, true⟩, .error e)

/-! ## Streaming instrumentation (utils/streaming.ts) -/

/-- One `onChunk(value, totalBytes, transferredBytes)` invocation. -/
structure StreamEvent where
  chunk : List Nat
  totalBytes : Option Nat
  transferredBytes : Nat
deriving DecidableEq, Repr

/-- How the source byte stream terminates after its chunks: `reader.read()`
either resolves `{ done: true }` or rejects with the stream's error. -/
inductive StreamTermination
  | done
  | errored
deriving DecidableEq, Repr

/-- The observable operations of the wrapped stream, in program order.
`startRejected` records the async `start` function's promise rejecting (the
read error re-thrown after the `finally` block); the source never calls
`controller.error`, so no error-forwarding operation exists to record. -/
inductive StreamOp
  | onChunkCall (e : StreamEvent)
  | enqueue (chunk : List Nat)
  | releaseLock
  | close
  | startRejected
deriving DecidableEq, Repr

/-- What the `finally` block and its aftermath perform once the read loop
stops (streaming.ts lines 25-28): on `{ done: true }` the loop breaks and the
`finally` releases the reader lock and closes the controller; on a
`reader.read()` rejection the same `finally` runs first — releaseLock, then
`controller.close()` — and only then does the error escape `start`, rejecting
its promise.  By WHATWG stream semantics that late rejection can no longer
error a stream whose close was already requested once its queue drains, so a
consumer that drains the queue observes a clean close and never the input's
error (and undrained chunks are discarded); the wrapper has no `cancel`
handler either, so downstream cancellation releases nothing upstream. -/
def terminationOps : StreamTermination → List StreamOp
  | .done => [.releaseLock, .close]
  | .errored => [.releaseLock, .close, .startRejected]

/-- The read loop of `createStreamingStream` (streaming.ts lines 14-30): for
each chunk, add its length to `transferredBytes`, invoke `onChunk`, then
`enqueue` the same chunk; when the loop stops — normally or by a read
rejection — the `finally` runs `terminationOps`.  A byte stream is modelled as
the finite list of its chunks plus its termination. -/
def streamLoop (totalBytes : Option Nat) (ending : StreamTermination)
    (transferred : Nat) : List (List Nat) → List StreamOp
  | [] => terminationOps ending
  | ch :: rest =>
    .onChunkCall ⟨ch, totalBytes, transferred + ch.length⟩
      :: .enqueue ch
      :: streamLoop totalBytes ending (transferred + ch.length) rest

/-- `createStreamingStream(reader, onChunk, totalBytes)`:
`transferredBytes` starts at 0. -/
def createStreamingStream (chunks : List (List Nat)) (totalBytes : Option Nat)
    (ending : StreamTermination) : List StreamOp :=
  streamLoop totalBytes ending 0 chunks

/-- The chunks the wrapped stream delivers downstream, in order. -/
def outputChunks (ops : List StreamOp) : List (List Nat) :=
  ops.filterMap fun op =>
    match op with
    | .enqueue c => some c
    | _ => none

/-- The `onChunk` invocations, in order. -/
def streamingEvents (ops : List StreamOp) : List StreamEvent :=
  ops.filterMap fun op =>
    match op with
    | .onChunkCall e => some e
    | _ => none

/-- `headers.get(name)`: `none` models `null` (header absent). -/
def getHeader (headers : List (String × String)) (name : String) :
    Option String :=
  (headers.find? fun p => p.1 = name).map (·.2)

/-- `parseInt(s, 10)` for the strings that occur as content-length values:
the maximal leading run of decimal digits; `none` models `NaN` (no leading
digit), a malformed-header case outside every claim. -/
def jsParseInt (s : String) : Option Nat :=
  let digits := s.data.takeWhile Char.isDigit
  if digits.isEmpty then none
  else some (digits.foldl (fun n c => n * 10 + (c.toNat - 48)) 0)

/-- The `totalBytes` computed by `toStreamableResponse` (streaming.ts lines
90-92): `headers.get('content-length') ? parseInt(...) : undefined` — an absent
header (and the falsy empty string) yields `undefined`. -/
def contentLengthTotal (headers : List (String × String)) : Option Nat :=
  match getHeader headers "content-length" with
  | none => none
  | some v => if v = "" then none else jsParseInt v

/-- `toStreamableResponse(response, onDownloadStreaming)` (streaming.ts lines
81-111), viewed through the operations of the stream it returns: with no
callback or no body the response is returned untouched (`none` — no
instrumentation wrapper at all); otherwise the body is wrapped by
`createStreamingStream` with `totalBytes` taken from the content-length
header.  Status, statusText and headers are copied unchanged onto the new
response, which is not hard to see and not claimed. -/
def toStreamableResponseOps (headers : List (String × String))
    (body : Option (List (List Nat) × StreamTermination)) (hasCallback : Bool) :
    Option (List StreamOp) :=
  match body, hasCallback with
  | some (chunks, ending), true =>
    some (createStreamingStream chunks (contentLengthTotal headers) ending)
  | _, _ => none

/-- Cumulative byte counts of a chunk list, starting from `t` bytes already
transferred. -/
def byteTotals (t : Nat) : List (List Nat) → List Nat
  | [] => []
  | c :: rest => (t + c.length) :: byteTotals (t + c.length) rest

/-- The spec's contract for the instrumented stream (spec §4.3), written from
the spec's words for the refinement comparison with `createStreamingStream`:
every chunk is forwarded unchanged in order, immediately preceded by exactly
one `onChunk` call carrying the running byte total, and the stream terminates
like the input — which for a normally-terminating input means reader released
and stream closed. -/
def specInstrumentedStream (chunks : List (List Nat)) (tb : Option Nat) :
    List StreamOp :=
  ((chunks.zip (byteTotals 0 chunks)).flatMap fun p =>
      [.onChunkCall ⟨p.1, tb, p.2⟩, .enqueue p.1])
    ++ [.releaseLock, .close]

/-! ## Path templates (`generatePath`) -/

/-- The fields of `PathParameterError` (errors.ts lines 73-92):
`url` is the template, `requiredParams` the names passed to the constructor,
`providedParams` the keys of the supplied pathParams object. -/
structure PathParameterErrorModel where
  url : String
  requiredParams : List String
  providedParams : List String
deriving DecidableEq, Repr

/-- The character class of the interpolation pattern, `[a-zA-Z0-9_]`. -/
def isParamChar (c : Char) : Bool :=
  c.isAlpha || c.isDigit || c = '_'

/-- `params[paramName] === undefined`-style lookup.  pathParams is modelled as
an association list whose values are `Option String`: `none` models a key
bound to `undefined` (which `generatePath` treats as missing); a
`string | number` value is stored already stringified, as the code applies
`String(...)` to it. -/
def lookupParam (params : List (String × Option String)) (name : String) :
    Option String :=
  match params.find? fun p => p.1 = name with
  | some (_, some v) => some v
  | _ => none

/-- `Object.keys(params)` (keys bound to `undefined` included). -/
def paramKeys (params : List (String × Option String)) : List String :=
  params.map (·.1)

/-- The global left-to-right replacement of `/:([a-zA-Z0-9_]+)/g` performed by
`generatePath`: at a `:` followed by at least one parameter character, the
maximal run of parameter characters is the token name; a missing or
`undefined` entry throws
`PathParameterError(template, [paramName], Object.keys(params))` at the first
such token; otherwise the match is replaced by the value and scanning resumes
after it.  A `:` not followed by a parameter character is left verbatim.
`fuel` bounds the recursion structurally; every step consumes at least one
character, so `fuel = length` suffices (the exported `generatePath` uses
exactly that). -/
def interpolateAux (tpl : String) (params : List (String × Option String)) :
    Nat → List Char → Except PathParameterErrorModel (List Char)
  | 0, l => .ok l
  | _ + 1, [] => .ok []
  | fuel + 1, c :: rest =>
    if c = ':' && !(rest.takeWhile isParamChar).isEmpty then
      let name : String := ⟨rest.takeWhile isParamChar⟩
      match lookupParam params name with
      | none => .error ⟨tpl, [name], paramKeys params⟩
      | some v =>
        (interpolateAux tpl params fuel (rest.dropWhile isParamChar)).map
          fun out => v.data ++ out
    else
      (interpolateAux tpl params fuel rest).map fun out => c :: out

/-- `generatePath` (utils path module, lines 90-105). -/
def generatePath (tpl : String) (params : List (String × Option String)) :
    Except PathParameterErrorModel String :=
  (interpolateAux tpl params tpl.length tpl.data).map fun l => ⟨l⟩

/-- The parameter tokens the regex matches in a template, in order (same scan
as `interpolateAux`). -/
def pathTokensAux : Nat → List Char → List String
  | 0, _ => []
  | _ + 1, [] => []
  | fuel + 1, c :: rest =>
    if c = ':' && !(rest.takeWhile isParamChar).isEmpty then
      (⟨rest.takeWhile isParamChar⟩ : String)
        :: pathTokensAux fuel (rest.dropWhile isParamChar)
    else
      pathTokensAux fuel rest

def pathTokens (tpl : String) : List String :=
  pathTokensAux tpl.length tpl.data

/-- The first token of the template whose lookup is missing or `undefined` —
the token whose name the thrown `PathParameterError` carries. -/
def firstMissing (params : List (String × Option String))
    (tokens : List String) : Option String :=
  tokens.find? fun n => (lookupParam params n).isNone

/-- The kind-based-only corner of the options space: reachable in the code
only by explicitly passing `shouldRetry: undefined`, which overwrites the
default predicate in the spread merge. -/
def kindOnlyRetryOptions : MergedRetryOptions σ δ :=
  { DEFAULT_RETRY_OPTIONS (σ := σ) (δ := δ) with shouldRetry := none }

/-- Concrete scenario: a transport that always yields HTTP 200 OK with decoded
body `7`. -/
def alwaysOk200 : Nat → Except (FetchError Nat Nat) (RespModel Nat) :=
  fun _ => .ok ⟨200, "OK", [], .ok 7⟩

/-- Concrete scenario: a response middleware whose call always rejects. -/
def failingResponseMW : ResponseEnvelope Nat → Except String (ResponseEnvelope Nat) :=
  fun _ => .error "middleware boom"

/-- Concrete scenario: a validator for the trivial `Nat` schema type (never
reached in the scenarios that use it, which pass no schema). -/
def natValidator : Nat → Nat → Except (SchemaCause Nat Nat) Nat :=
  fun _ d => .ok d

/-- Concrete scenario: default options with a backoff factor below one. -/
def halfBackoffOpts : MergedRetryOptions Nat Nat :=
  { DEFAULT_RETRY_OPTIONS (σ := Nat) (δ := Nat) with backoffFactor := 1/2 }

/-- Concrete scenario: a schema object failing the structural
`isStandardSchema` check. -/
def badSchema : StandardSchema Nat :=
  ⟨false, fun _ => .success 0⟩

/-! # Theorems -/

/-- Loop invariant: every iteration of the retry loop makes exactly one
transport call, so calls are one more than retries taken and bounded by the
remaining attempt budget plus one. -/
theorem runFrom_calls (opts : MergedRetryOptions σ δ) (t : ℚ)
    (body : Nat → Except (FetchError σ δ) α) :
    ∀ r a, (runFrom opts t body r a).transportCalls
        = 1 + (runFrom opts t body r a).retriesTaken
      ∧ (runFrom opts t body r a).transportCalls ≤ r + 1 := by
  intro r
  induction r with
  | zero =>
    intro a
    cases h : body a <;> simp [runFrom, h]
  | succ r ih =>
    intro a
    cases h : body a with
    | ok v => simp [runFrom, h]
    | error e =>
      simp only [runFrom, h]
      split
      · have h2 := ih (a + 1)
        simp only at h2 ⊢
        omega
      · simp

/-- When every attempt fails with an error the policy retries, the loop runs
through its whole budget: starting with `r` retries left at attempt `a`, it
makes `r + 1` calls, takes `r` retries, sleeps the computed delay before each
retried attempt, and settles on the final attempt's normalized error. -/
theorem runFrom_all_fail (opts : MergedRetryOptions σ δ) (t : ℚ)
    (errAt : Nat → FetchError σ δ)
    (helig : ∀ i, shouldRetryFn opts (normalizeCaughtError t (errAt i)) i = true) :
    ∀ r a, runFrom opts t (fun i => (.error (errAt i) : Except (FetchError σ δ) α)) r a
      = ⟨r + 1, r, (List.range' a r).map fun i => calculateRetryDelay i opts,
          .error (normalizeCaughtError t (errAt (a + r)))⟩ := by
  intro r
  induction r with
  | zero =>
    intro a
    simp [runFrom, List.range']
  | succ r ih =>
    intro a
    simp only [runFrom, helig a, if_true]
    rw [ih (a + 1)]
    have h1 : a + 1 + r = a + (r + 1) := by omega
    simp [List.range', h1]

/-- **C1**: for a merged retry policy with `maxRetries = n` and a transport
that fails every attempt with an error the policy's retry classification
accepts, the loop makes exactly `n + 1` transport calls and rejects with the
final attempt's (normalized) error; and for every attempt body whatsoever, the
number of transport calls equals `1 +` the retries actually taken and is
bounded by `1 + maxRetries`.  (Stated for an invocation that reaches the retry
loop; a request-middleware failure aborts before it, see the middleware
theorems.) -/
theorem retryLoop_call_count (opts : MergedRetryOptions σ δ) (t : ℚ)
    (errAt : Nat → FetchError σ δ)
    (helig : ∀ i, shouldRetryFn opts (normalizeCaughtError t (errAt i)) i = true) :
    ((runRetryLoop opts t fun i => (.error (errAt i) : Except (FetchError σ δ) α)).transportCalls
        = opts.maxRetries + 1
      ∧ (runRetryLoop opts t fun i => (.error (errAt i) : Except (FetchError σ δ) α)).outcome
        = .error (normalizeCaughtError t (errAt opts.maxRetries)))
    ∧ ∀ body : Nat → Except (FetchError σ δ) α,
        (runRetryLoop opts t body).transportCalls
            = 1 + (runRetryLoop opts t body).retriesTaken
          ∧ (runRetryLoop opts t body).transportCalls ≤ 1 + opts.maxRetries := by
  constructor
  · rw [runRetryLoop, runFrom_all_fail opts t errAt helig]
    simp
  · intro body
    have h := runFrom_calls opts t body opts.maxRetries 0
    rw [runRetryLoop]
    exact ⟨h.1, by omega⟩

/-- Witness for `retryLoop_call_count`: default merged options
(`maxRetries = 3`) and a transport failing every attempt with a network
error — four transport calls and the final error. -/
theorem retryLoop_call_count_witness :
    (runRetryLoop (mergeRetryOptions (σ := Nat) (δ := Nat) none none) 30000
        fun i => (.error ((fun _ => FetchError.networkError "connection reset") i)
          : Except (FetchError Nat Nat) Nat)).transportCalls
      = (mergeRetryOptions (σ := Nat) (δ := Nat) none none).maxRetries + 1
    ∧ (runRetryLoop (mergeRetryOptions (σ := Nat) (δ := Nat) none none) 30000
        fun i => (.error ((fun _ => FetchError.networkError "connection reset") i)
          : Except (FetchError Nat Nat) Nat)).outcome
      = .error (normalizeCaughtError 30000 (.networkError "connection reset")) :=
  (retryLoop_call_count (α := Nat) (mergeRetryOptions none none) 30000
    (fun _ => .networkError "connection reset") fun _ => rfl).1

/-- **C2** (code bug): when neither layer supplies `shouldRetry`, the merge
still installs `DEFAULT_RETRY_OPTIONS.shouldRetry = () => true`, so the
predicate — not the error kind — decides, and it retries everything: a
`SchemaValidationError` and an `HttpError` with a status outside
`retryStatusCodes` are both retried.  The kind-based classification the claim
describes runs only when `shouldRetry` is actually absent
(`kindOnlyRetryOptions`), and there it behaves exactly as claimed. -/
theorem default_shouldRetry_retries_everything :
    (mergeRetryOptions (σ := Nat) (δ := Nat) none none).shouldRetry.isSome = true
    ∧ shouldRetryFn (mergeRetryOptions (σ := Nat) (δ := Nat) none none)
        (.schemaValidationError 0 0 none) 0 = true
    ∧ shouldRetryFn (mergeRetryOptions (σ := Nat) (δ := Nat) none none)
        (.httpError 400 "Bad Request" 0 "https://api.example.com/bad-request" "GET") 0 = true
    ∧ shouldRetryFn (kindOnlyRetryOptions (σ := Nat) (δ := Nat))
        (.schemaValidationError 0 0 none) 0 = false
    ∧ shouldRetryFn (kindOnlyRetryOptions (σ := Nat) (δ := Nat))
        (.httpError 400 "Bad Request" 0 "u" "GET") 0 = false
    ∧ shouldRetryFn (kindOnlyRetryOptions (σ := Nat) (δ := Nat))
        (.httpError 500 "Internal Server Error" 0 "u" "GET") 0 = true
    ∧ shouldRetryFn (kindOnlyRetryOptions (σ := Nat) (δ := Nat))
        (.networkError "socket hang up") 0 = true := by
  refine ⟨rfl, rfl, rfl, ?_, ?_, ?_, ?_⟩ <;> decide

/-- **C3 counterexample**: under the default merged policy a response-phase
middleware error is retried — transport succeeds every time, the response
middleware always rejects, and the invocation makes 4 transport calls and 3
retries before finally rejecting with the MiddlewareError, instead of
terminating immediately after the first middleware failure. -/
theorem response_middleware_error_retried :
    (fetcherRun none (mergeRetryOptions (σ := Nat) (δ := Nat) none none) 30000
        (attemptBody alwaysOk200 none none natValidator (some failingResponseMW)
          "GET" "https://api.example.com/users")
        "https://api.example.com/users" "GET").transportCalls = 4
    ∧ (fetcherRun none (mergeRetryOptions (σ := Nat) (δ := Nat) none none) 30000
        (attemptBody alwaysOk200 none none natValidator (some failingResponseMW)
          "GET" "https://api.example.com/users")
        "https://api.example.com/users" "GET").outcome
      = .error (.middlewareError .response "https://api.example.com/users" "GET") :=
  ⟨rfl, rfl⟩

/-- **C3** (amended): a request-phase middleware error is raised as a
`MiddlewareError` tagged `request` with the in-flight URL/method before the
retry loop ever runs — zero transport calls, never retried.  A response-phase
middleware error is raised as a `MiddlewareError` tagged `response` but inside
the loop, where it is classified like any other attempt failure: the
kind-based classifier (no effective `shouldRetry`) never retries it and the
loop then stops after one transport call, but an effective `shouldRetry`
predicate — including the installed default — decides instead and may retry
it. -/
theorem middleware_error_propagation :
    (∀ (msg : String) (opts : MergedRetryOptions σ δ) (t : ℚ)
        (body : Nat → Except (FetchError σ δ) α) (url method : String),
        fetcherRun (some (.error msg)) opts t body url method
          = ⟨0, 0, [], .error (.middlewareError .request url method)⟩)
    ∧ (∀ opts : MergedRetryOptions σ δ, opts.shouldRetry = none →
        ∀ (url method : String) (i : Nat),
          shouldRetryFn opts (.middlewareError .response url method) i = false)
    ∧ (∀ opts : MergedRetryOptions σ δ, opts.shouldRetry = none →
        ∀ (t : ℚ) (url method : String),
          runRetryLoop opts t
              (fun _ => (.error (.middlewareError .response url method)
                : Except (FetchError σ δ) α))
            = ⟨1, 0, [], .error (.middlewareError .response url method)⟩) := by
  refine ⟨?_, ?_, ?_⟩
  · intro msg opts t body url method
    rfl
  · intro opts h url method i
    simp [shouldRetryFn, h, FetchError.isNetworkLike, FetchError.errName]
  · intro opts h t url method
    rw [runRetryLoop]
    cases hm : opts.maxRetries with
    | zero => simp [runFrom, normalizeCaughtError, FetchError.errName]
    | succ r =>
      simp [runFrom, normalizeCaughtError, FetchError.errName, shouldRetryFn, h,
        FetchError.isNetworkLike]

/-- Witness for `middleware_error_propagation` at concrete inputs (the
kind-based corner uses `kindOnlyRetryOptions`, whose `shouldRetry` is
absent). -/
theorem middleware_error_propagation_witness :
    fetcherRun (σ := Nat) (δ := Nat) (α := Nat) (some (.error "boom"))
        (mergeRetryOptions none none) 30000 (fun _ => .ok 0)
        "https://api.example.com/u" "GET"
      = ⟨0, 0, [], .error (.middlewareError .request "https://api.example.com/u" "GET")⟩
    ∧ shouldRetryFn (kindOnlyRetryOptions (σ := Nat) (δ := Nat))
        (.middlewareError .response "https://api.example.com/u" "GET") 0 = false
    ∧ runRetryLoop (kindOnlyRetryOptions (σ := Nat) (δ := Nat)) 30000
        (fun _ => (.error (.middlewareError .response "https://api.example.com/u" "GET")
          : Except (FetchError Nat Nat) Nat))
      = ⟨1, 0, [], .error (.middlewareError .response "https://api.example.com/u" "GET")⟩ :=
  ⟨(middleware_error_propagation (σ := Nat) (δ := Nat) (α := Nat)).1 "boom" _ _ _ _ _,
   (middleware_error_propagation (σ := Nat) (δ := Nat) (α := Nat)).2.1 _ rfl _ _ 0,
   (middleware_error_propagation (σ := Nat) (δ := Nat) (α := Nat)).2.2 _ rfl 30000 _ _⟩

/-- **C4 counterexample**: an abort that came from the caller's own
cancellation signal is normalized to a `TimeoutError` too — it does not
propagate as-is.  Shown on the normalization itself and on a loop run under a
policy that never retries. -/
theorem caller_abort_normalized_to_timeout :
    normalizeCaughtError (σ := Nat) (δ := Nat) 30000 (.abortError .callerSignal)
      = .timeoutError 30000 (some .callerSignal)
    ∧ (runRetryLoop
          { DEFAULT_RETRY_OPTIONS (σ := Nat) (δ := Nat) with
              shouldRetry := some fun _ _ => false } 30000
          (fun _ => (.error (.abortError .callerSignal)
            : Except (FetchError Nat Nat) Nat))).outcome
      = .error (.timeoutError 30000 (some .callerSignal)) :=
  ⟨rfl, rfl⟩

/-- **C4** (amended): the catch block normalizes by error name alone — every
failure named "AbortError" becomes a `TimeoutError` carrying the per-attempt
timeout value, whether the abort came from the per-attempt timeout or from the
caller's own cancellation signal; every other failure passes through
unchanged. -/
theorem abort_normalization (t : ℚ) :
    (∀ o : AbortOrigin,
        normalizeCaughtError (σ := σ) (δ := δ) t (.abortError o)
          = .timeoutError t (some o))
    ∧ ∀ e : FetchError σ δ, e.errName ≠ "AbortError" →
        normalizeCaughtError t e = e := by
  constructor
  · intro o
    rfl
  · intro e h
    simp [normalizeCaughtError, h]

/-- Witness for `abort_normalization`: a timeout-origin abort becomes a
TimeoutError; a network error is left unchanged. -/
theorem abort_normalization_witness :
    normalizeCaughtError (σ := Nat) (δ := Nat) 5000 (.abortError .perAttemptTimeout)
      = .timeoutError 5000 (some .perAttemptTimeout)
    ∧ normalizeCaughtError (σ := Nat) (δ := Nat) 5000 (.networkError "x")
      = .networkError "x" :=
  ⟨(abort_normalization 5000).1 .perAttemptTimeout,
   (abort_normalization 5000).2 _ (by decide)⟩

/-- **C5** (code bug): with the caller's signal already aborted the code does
not short-circuit — the pre-aborted signal is handed to the transport, which
is invoked and rejects with an AbortError; under the default merged options
that abort is normalized to a TimeoutError and retried, so the invocation
makes `maxRetries + 1 = 4` transport calls (never zero) and fails with a
TimeoutError.  In general, every run of the retry loop makes at least one
transport call. -/
theorem aborted_signal_still_calls_transport :
    ((runRetryLoop (mergeRetryOptions (σ := Nat) (δ := Nat) none none) 30000
        (attemptBody (transportWithSignal true alwaysOk200) none none natValidator
          none "GET" "https://api.example.com/users")).transportCalls = 4
      ∧ (runRetryLoop (mergeRetryOptions (σ := Nat) (δ := Nat) none none) 30000
          (attemptBody (transportWithSignal true alwaysOk200) none none natValidator
            none "GET" "https://api.example.com/users")).outcome
        = .error (.timeoutError 30000 (some .callerSignal)))
    ∧ ∀ (opts : MergedRetryOptions σ δ) (t : ℚ)
        (body : Nat → Except (FetchError σ δ) α),
        1 ≤ (runRetryLoop opts t body).transportCalls := by
  refine ⟨⟨rfl, rfl⟩, ?_⟩
  intro opts t body
  have h := runFrom_calls opts t body opts.maxRetries 0
  rw [runRetryLoop]
  omega

/-- **C6** (code bug): the per-attempt timer bookkeeping — `clearTimeout` runs
in the catch branch (covering the retry and final-failure branches) and in the
abort-event cleanup, but the success branch returns from the `try` block with
the timer set and never cleared. -/
theorem success_branch_leaves_timer :
    (runAttemptTimer (σ := Nat) (δ := Nat) false (.ok (0 : Nat))).1
      = ⟨true, false⟩
    ∧ (runAttemptTimer (σ := Nat) (δ := Nat) false
        (.error (.networkError "x") : Except (FetchError Nat Nat) Nat)).1.timerCleared
      = true :=
  ⟨rfl, rfl⟩

/-- **C7 counterexample**: the claim's monotonicity does not hold for every
retry policy — with `backoffFactor = 1/2` the delay shrinks between the first
and second retry. -/
theorem backoff_not_monotone_for_small_factor :
    calculateRetryDelay 1 halfBackoffOpts < calculateRetryDelay 0 halfBackoffOpts := by
  norm_num [calculateRetryDelay, halfBackoffOpts, DEFAULT_RETRY_OPTIONS]

/-- **C7** (amended): for every retry policy the delay slept between failed
attempt `i` and attempt `i + 1` is
`min(retryDelay * backoffFactor ^ i, maxRetryDelay)` — shown on the delays the
loop actually records in a fully retried run — and for policies with
`retryDelay ≥ 0` and `backoffFactor ≥ 1` this delay is monotonically
non-decreasing in `i`. -/
theorem retry_delay_formula_monotone (opts : MergedRetryOptions σ δ) (t : ℚ)
    (errAt : Nat → FetchError σ δ)
    (helig : ∀ i, shouldRetryFn opts (normalizeCaughtError t (errAt i)) i = true)
    (h0 : 0 ≤ opts.retryDelay) (h1 : 1 ≤ opts.backoffFactor) :
    (runRetryLoop opts t fun i => (.error (errAt i) : Except (FetchError σ δ) α)).delays
        = ((List.range opts.maxRetries).map
            fun i => min (opts.retryDelay * opts.backoffFactor ^ i) opts.maxRetryDelay)
    ∧ ∀ i : Nat, calculateRetryDelay i opts ≤ calculateRetryDelay (i + 1) opts := by
  constructor
  · rw [runRetryLoop, runFrom_all_fail opts t errAt helig]
    simp [List.range_eq_range', calculateRetryDelay]
  · intro i
    unfold calculateRetryDelay
    refine min_le_min ?_ le_rfl
    exact mul_le_mul_of_nonneg_left (pow_le_pow_right₀ h1 (Nat.le_succ i)) h0

/-- Witness for `retry_delay_formula_monotone`: default merged options, always
failing network errors — the recorded delays match the formula and the delay
is non-decreasing between retries 2 and 3. -/
theorem retry_delay_formula_monotone_witness :
    (runRetryLoop (mergeRetryOptions (σ := Nat) (δ := Nat) none none) 30000
        fun i => (.error ((fun _ => FetchError.networkError "x") i)
          : Except (FetchError Nat Nat) Nat)).delays
      = ((List.range (mergeRetryOptions (σ := Nat) (δ := Nat) none none).maxRetries).map
          fun i => min ((mergeRetryOptions (σ := Nat) (δ := Nat) none none).retryDelay
              * (mergeRetryOptions (σ := Nat) (δ := Nat) none none).backoffFactor ^ i)
            (mergeRetryOptions (σ := Nat) (δ := Nat) none none).maxRetryDelay)
    ∧ calculateRetryDelay 2 (mergeRetryOptions (σ := Nat) (δ := Nat) none none)
        ≤ calculateRetryDelay 3 (mergeRetryOptions (σ := Nat) (δ := Nat) none none) := by
  have h := retry_delay_formula_monotone (α := Nat)
    (mergeRetryOptions (σ := Nat) (δ := Nat) none none) 30000
    (fun _ => .networkError "x") (fun _ => rfl) (by decide) (by decide)
  exact ⟨h.1, h.2 2⟩

/-- `List.dropWhile` never lengthens a list (helper for the template scan). -/
theorem dropWhile_length_le (p : Char → Bool) :
    ∀ l : List Char, (l.dropWhile p).length ≤ l.length := by
  intro l
  induction l with
  | nil => simp [List.dropWhile]
  | cons c rest ih =>
    by_cases h : p c
    · simp only [List.dropWhile, h]
      exact Nat.le_succ_of_le ih
    · simp [List.dropWhile, h]

/-- The template scan settles exactly as the token list predicts: if some
matched token has a missing/undefined lookup, the scan throws a
`PathParameterError` naming the first such token (and only it); otherwise it
succeeds. -/
theorem interpolateAux_spec (tpl : String) (params : List (String × Option String)) :
    ∀ fuel l, l.length ≤ fuel →
      ((∀ n, firstMissing params (pathTokensAux fuel l) = some n →
          interpolateAux tpl params fuel l = .error ⟨tpl, [n], paramKeys params⟩)
        ∧ (firstMissing params (pathTokensAux fuel l) = none →
            ∃ out, interpolateAux tpl params fuel l = .ok out)) := by
  intro fuel
  induction fuel with
  | zero =>
    intro l hl
    have hnil : l = [] := List.length_eq_zero.mp (Nat.le_zero.mp hl)
    subst hnil
    constructor
    · intro n hn
      simp [firstMissing, pathTokensAux] at hn
    · intro _
      exact ⟨[], rfl⟩
  | succ fuel ih =>
    intro l hl
    cases l with
    | nil =>
      constructor
      · intro n hn
        simp [firstMissing, pathTokensAux] at hn
      · intro _
        exact ⟨[], rfl⟩
    | cons c rest =>
      have hrest : rest.length ≤ fuel := by
        simp at hl
        omega
      cases hg : (c = ':' && !(rest.takeWhile isParamChar).isEmpty) with
      | false =>
        have hspec := ih rest hrest
        constructor
        · intro n hn
          rw [show pathTokensAux (fuel + 1) (c :: rest) = pathTokensAux fuel rest
              from by simp [pathTokensAux, hg]] at hn
          have herr := hspec.1 n hn
          simp [interpolateAux, hg, herr, Except.map]
        · intro hn
          rw [show pathTokensAux (fuel + 1) (c :: rest) = pathTokensAux fuel rest
              from by simp [pathTokensAux, hg]] at hn
          obtain ⟨out, hout⟩ := hspec.2 hn
          exact ⟨c :: out, by simp [interpolateAux, hg, hout, Except.map]⟩
      | true =>
        have htok : pathTokensAux (fuel + 1) (c :: rest)
            = (⟨rest.takeWhile isParamChar⟩ : String)
              :: pathTokensAux fuel (rest.dropWhile isParamChar) := by
          simp [pathTokensAux, hg]
        cases hlook : lookupParam params ⟨rest.takeWhile isParamChar⟩ with
        | none =>
          constructor
          · intro n hn
            rw [htok] at hn
            rw [firstMissing, List.find?_cons_of_pos _ (by simp [hlook])] at hn
            cases hn
            simp [interpolateAux, hg, hlook]
          · intro hn
            rw [htok] at hn
            rw [firstMissing, List.find?_cons_of_pos _ (by simp [hlook])] at hn
            cases hn
        | some v =>
          have hdrop : (rest.dropWhile isParamChar).length ≤ fuel :=
            le_trans (dropWhile_length_le isParamChar rest) hrest
          have hspec := ih (rest.dropWhile isParamChar) hdrop
          have hfm : firstMissing params (pathTokensAux (fuel + 1) (c :: rest))
              = firstMissing params (pathTokensAux fuel (rest.dropWhile isParamChar)) := by
            rw [htok, firstMissing, List.find?_cons_of_neg _ (by simp [hlook]), firstMissing]
          constructor
          · intro n hn
            rw [hfm] at hn
            have herr := hspec.1 n hn
            simp [interpolateAux, hg, hlook, herr, Except.map]
          · intro hn
            rw [hfm] at hn
            obtain ⟨out, hout⟩ := hspec.2 hn
            exact ⟨v.data ++ out, by simp [interpolateAux, hg, hlook, hout, Except.map]⟩

/-- **C8 counterexample**: the runtime `generatePath` treats an optional
`:name?` token exactly like a required one — `/users/:id?` with no `id` key
throws a `PathParameterError` — and with several tokens missing the error
names only the first one (`["x"]`, not `["x", "y"]`).  A supplied key
interpolates as expected. -/
theorem optional_token_requires_key :
    generatePath "/users/:id?" [] = .error ⟨"/users/:id?", ["id"], []⟩
    ∧ generatePath "/a/:x/:y" [] = .error ⟨"/a/:x/:y", ["x"], []⟩
    ∧ generatePath "/users/:id" [("id", some "1")] = .ok "/users/1" := by
  refine ⟨?_, ?_, ?_⟩ <;> rfl

/-- **C8** (amended): invoking with pathParams that lack a matching key for a
`:name` token (a key bound to `undefined` counts as missing) fails with a
`PathParameterError` whose `url` is the template, whose `providedParams` are
the supplied keys, and whose `requiredParams` name exactly the **first**
missing token of the template — optional `:name?` tokens are treated like
required ones at runtime; when no matched token is missing the interpolation
succeeds. -/
theorem generatePath_missing_param_spec (tpl : String)
    (params : List (String × Option String)) :
    (∀ n, firstMissing params (pathTokens tpl) = some n →
        generatePath tpl params = .error ⟨tpl, [n], paramKeys params⟩)
    ∧ (firstMissing params (pathTokens tpl) = none →
        ∃ out, generatePath tpl params = .ok out) := by
  have h := interpolateAux_spec tpl params tpl.length tpl.data le_rfl
  constructor
  · intro n hn
    have herr := h.1 n hn
    simp [generatePath, herr, Except.map]
  · intro hn
    obtain ⟨out, hout⟩ := h.2 hn
    exact ⟨⟨out⟩, by simp [generatePath, hout, Except.map]⟩

/-- Witness for `generatePath_missing_param_spec`: a template with one missing
token errors naming it; a fully supplied template succeeds. -/
theorem generatePath_missing_param_spec_witness :
    generatePath "/users/:id/posts/:postId" [("id", some "3")]
      = .error ⟨"/users/:id/posts/:postId", ["postId"], ["id"]⟩
    ∧ ∃ out, generatePath "/users/:id" [("id", some "7")] = .ok out :=
  ⟨(generatePath_missing_param_spec _ _).1 "postId" (by decide),
   (generatePath_missing_param_spec _ _).2 (by decide)⟩

/-- The instrumented read loop, from any starting byte count, is exactly the
interleaving "callback, then forward" over the chunk list, closed off by the
finally block's operations for the given termination. -/
theorem streamLoop_eq_spec (tb : Option Nat) (ending : StreamTermination) :
    ∀ (chunks : List (List Nat)) (t : Nat),
      streamLoop tb ending t chunks
        = ((chunks.zip (byteTotals t chunks)).flatMap fun p =>
            [.onChunkCall ⟨p.1, tb, p.2⟩, .enqueue p.1]) ++ terminationOps ending := by
  intro chunks
  induction chunks with
  | nil =>
    intro t
    simp [streamLoop, byteTotals]
  | cons c rest ih =>
    intro t
    simp [streamLoop, byteTotals, ih (t + c.length)]

/-- The wrapped stream forwards exactly the input chunks, in order, whatever
the termination. -/
theorem outputChunks_streamLoop (tb : Option Nat) (ending : StreamTermination) :
    ∀ (chunks : List (List Nat)) (t : Nat),
      outputChunks (streamLoop tb ending t chunks) = chunks := by
  intro chunks
  induction chunks with
  | nil =>
    intro t
    cases ending <;> simp [streamLoop, terminationOps, outputChunks]
  | cons c rest ih =>
    intro t
    simp [streamLoop, outputChunks] at ih ⊢
    exact ih (t + c.length)

/-- The callback sees one event per chunk, carrying the cumulative byte
count, whatever the termination. -/
theorem events_streamLoop (tb : Option Nat) (ending : StreamTermination) :
    ∀ (chunks : List (List Nat)) (t : Nat),
      streamingEvents (streamLoop tb ending t chunks)
        = ((chunks.zip (byteTotals t chunks)).map fun p => ⟨p.1, tb, p.2⟩) := by
  intro chunks
  induction chunks with
  | nil =>
    intro t
    cases ending <;> simp [streamLoop, terminationOps, byteTotals, streamingEvents]
  | cons c rest ih =>
    intro t
    simp [streamLoop, byteTotals, streamingEvents] at ih ⊢
    exact ih (t + c.length)

/-- **C9 counterexample**: an input that errors after its first chunk is not
given the same termination: the `finally` releases the reader and closes the
controller before the read error escapes, so the trace ends
releaseLock, close, startRejected — the controller is closed, never errored
(the source has no `controller.error` call), and a consumer that drains the
queue observes a clean close instead of the input's error. -/
theorem erroring_input_closed_cleanly :
    createStreamingStream [[1]] (some 1) .errored
      = [.onChunkCall ⟨[1], some 1, 1⟩, .enqueue [1],
          .releaseLock, .close, .startRejected]
    ∧ StreamOp.close ∈ createStreamingStream [[1]] (some 1) .errored
    ∧ createStreamingStream [[1]] (some 1) .errored
        ≠ createStreamingStream [[1]] (some 1) .done := by
  refine ⟨rfl, by decide, by decide⟩

/-- **C9** (amended): the instrumented stream delivers exactly the input's
chunks in the input's order, invoking the progress callback once per chunk
before forwarding it, with cumulative `transferredBytes` and with `totalBytes`
from the content-length header — unknown for every chunk when that header is
absent.  A normally-terminating input is terminated identically (reader
released, stream cleanly closed, the spec-side contract).  An input that
errors mid-stream is **not** terminated identically: the `finally` releases
the reader and requests `controller.close()` before the error escapes, so the
controller is closed in every run and the input's error is never forwarded
through it — downstream sees a clean close once the queue drains (queued
chunks are dropped if the late start rejection lands first), not the input's
error termination. -/
theorem streaming_instrumentor_spec (chunks : List (List Nat)) (tb : Option Nat)
    (ending : StreamTermination) :
    createStreamingStream chunks tb .done = specInstrumentedStream chunks tb
    ∧ outputChunks (createStreamingStream chunks tb ending) = chunks
    ∧ streamingEvents (createStreamingStream chunks tb ending)
        = ((chunks.zip (byteTotals 0 chunks)).map fun p => ⟨p.1, tb, p.2⟩)
    ∧ (∀ e ∈ streamingEvents (createStreamingStream chunks tb ending), e.totalBytes = tb)
    ∧ createStreamingStream chunks tb .errored
        = ((chunks.zip (byteTotals 0 chunks)).flatMap fun p =>
            [.onChunkCall ⟨p.1, tb, p.2⟩, .enqueue p.1])
          ++ [.releaseLock, .close, .startRejected]
    ∧ StreamOp.close ∈ createStreamingStream chunks tb ending
    ∧ ∀ (headers : List (String × String)) (body : List (List Nat))
        (ops : List StreamOp),
        getHeader headers "content-length" = none →
        toStreamableResponseOps headers (some (body, ending)) true = some ops →
        ∀ e ∈ streamingEvents ops, e.totalBytes = none := by
  refine ⟨streamLoop_eq_spec tb .done chunks 0,
    outputChunks_streamLoop tb ending chunks 0,
    events_streamLoop tb ending chunks 0, ?_,
    streamLoop_eq_spec tb .errored chunks 0, ?_, ?_⟩
  · intro e he
    rw [createStreamingStream, events_streamLoop] at he
    simp only [List.mem_map] at he
    obtain ⟨p, _, rfl⟩ := he
    rfl
  · rw [createStreamingStream, streamLoop_eq_spec]
    cases ending <;> simp [terminationOps]
  · intro headers body ops hcl hops e he
    have hops2 : ops = createStreamingStream body (contentLengthTotal headers) ending := by
      simpa [toStreamableResponseOps] using hops.symm
    have hnone : contentLengthTotal headers = none := by
      simp [contentLengthTotal, hcl]
    subst hops2
    rw [hnone, createStreamingStream, events_streamLoop] at he
    simp only [List.mem_map] at he
    obtain ⟨p, _, rfl⟩ := he
    rfl

/-- Witness for `streaming_instrumentor_spec` on a two-chunk,
normally-terminating stream with a known total of 3 bytes. -/
theorem streaming_instrumentor_spec_witness :
    outputChunks (createStreamingStream [[1, 2], [3]] (some 3) .done) = [[1, 2], [3]]
    ∧ ((⟨[3], some 3, 3⟩ : StreamEvent)
        ∈ streamingEvents (createStreamingStream [[1, 2], [3]] (some 3) .done))
    ∧ (⟨[3], some 3, 3⟩ : StreamEvent).totalBytes = some 3 :=
  ⟨(streaming_instrumentor_spec [[1, 2], [3]] (some 3) .done).2.1, by decide,
   (streaming_instrumentor_spec [[1, 2], [3]] (some 3) .done).2.2.2.1 _ (by decide)⟩

/-- `processResponse` settles in exactly one of four shapes: a successful
envelope, a `SerializationError` from decoding, an `HttpError` from status
validation, or a `SchemaValidationError` wrapping whatever the validator
threw. -/
theorem processResponse_cases (resp : RespModel δ) (vs : Option (Nat → Bool))
    (schemaOpt : Option σ) (validator : σ → δ → Except (SchemaCause σ δ) δ)
    (method url : String) :
    (∃ env, processResponse resp vs schemaOpt validator method url = .ok env)
    ∨ (∃ msg, processResponse resp vs schemaOpt validator method url
        = .error (.serializationError msg))
    ∨ (∃ d, processResponse resp vs schemaOpt validator method url
        = .error (.httpError resp.status resp.statusText d url method))
    ∨ (∃ s d c, schemaOpt = some s
        ∧ processResponse resp vs schemaOpt validator method url
          = .error (.schemaValidationError s d (some c))) := by
  rcases hde : resp.decodeOutcome with msg | d
  · exact Or.inr (Or.inl ⟨msg, by simp [processResponse, hde]⟩)
  · cases hv : (vs.getD defaultValidateStatus) resp.status with
    | false =>
      exact Or.inr (Or.inr (Or.inl ⟨d, by simp [processResponse, hde, hv]⟩))
    | true =>
      cases schemaOpt with
      | none =>
        exact Or.inl ⟨⟨d, resp.status, resp.statusText, resp.headers, method, url⟩,
          by simp [processResponse, hde, hv]⟩
      | some s =>
        rcases hval : validator s d with c | v
        · exact Or.inr (Or.inr (Or.inr ⟨s, d, c, rfl,
            by simp [processResponse, hde, hv, hval]⟩))
        · exact Or.inl ⟨⟨v, resp.status, resp.statusText, resp.headers, method, url⟩,
            by simp [processResponse, hde, hv, hval]⟩

/-- **C10**: with the standard validator installed, the pipeline's response
processing never surfaces an `InvalidSchemaError` or
`AsyncSchemaValidationError`: every error the validator throws — including
those two — is caught and re-wrapped into a `SchemaValidationError` carrying
the schema, the decoded data, and the original error as its cause. -/
theorem schema_errors_wrapped_at_boundary (resp : RespModel δ)
    (vs : Option (Nat → Bool)) (schemaOpt : Option (StandardSchema δ))
    (method url : String) :
    (∀ s' : StandardSchema δ,
        processResponse resp vs schemaOpt standardValidate method url
            ≠ .error (.invalidSchemaError s')
        ∧ processResponse resp vs schemaOpt standardValidate method url
            ≠ .error (.asyncSchemaValidationError s'))
    ∧ ∀ (s : StandardSchema δ) (d : δ) (c : SchemaCause (StandardSchema δ) δ),
        resp.decodeOutcome = .ok d →
        (vs.getD defaultValidateStatus) resp.status = true →
        standardValidate s d = .error c →
        processResponse resp vs (some s) standardValidate method url
          = .error (.schemaValidationError s d (some c)) := by
  constructor
  · intro s'
    have hc := processResponse_cases resp vs schemaOpt standardValidate method url
    constructor <;>
    · intro hcontra
      rcases hc with ⟨env, h⟩ | ⟨msg, h⟩ | ⟨d, h⟩ | ⟨s, d, c, _, h⟩ <;>
        rw [h] at hcontra <;> simp at hcontra
  · intro s d c hdec hvs hval
    simp [processResponse, hdec, hvs, hval]

/-- Witness for `schema_errors_wrapped_at_boundary`: a 200 response with
decoded data `7` validated against a schema that fails the structural check —
the `InvalidSchemaError` the validator throws reaches the caller only as the
cause inside a `SchemaValidationError`. -/
theorem schema_errors_wrapped_at_boundary_witness :
    processResponse (⟨200, "OK", [], .ok 7⟩ : RespModel Nat) none (some badSchema)
        standardValidate "GET" "https://api.example.com/users"
      = .error (.schemaValidationError badSchema 7 (some (.invalidSchema badSchema))) :=
  (schema_errors_wrapped_at_boundary ⟨200, "OK", [], .ok 7⟩ none (some badSchema)
      "GET" "https://api.example.com/users").2
    badSchema 7 (.invalidSchema badSchema) rfl (by decide) rfl

end OneKFetches
